import Mathlib

/-
Verification of the connection/acquisition state machine and the fan
decision-and-actuation engine of Polar_HR_Fan.ino.

The sketch keeps its state in process-wide globals; we embed them as the
record SysState below.  The hardware timer msSinceFanChange (an
elapsedMillis counter reset after each actuation) is represented by
absolute times: a run carries the current time `now` and the time
`lastReset` at which the counter was last zeroed, so the value the loop
reads is `now - lastReset`.  A run is a sequence of environment steps
(asynchronous BLE callbacks, passage of time) interleaved with iterations
of loop().
-/

set_option autoImplicit false

/-- Device states of the connection state machine (enum state, line 287). -/
inductive DevState
  | stInit
  | stIdle
  | stScanning
  | stConnected
  deriving DecidableEq, Repr

/-- Fan speeds (enum fanSpeeds, line 292); fsInit is the sentinel used only
as the initial value of fanLastSpeed. -/
inductive FanSpeeds
  | fsInit
  | fsOff
  | fsLow
  | fsMed
  | fsHigh
  deriving DecidableEq, Repr

open DevState FanSpeeds

/-- Global mutable state of the sketch: the flags and cells mutated by the
BLE callbacks and by loop() (lines 256-294). -/
structure SysState where
  doConnect : Bool
  connected : Bool
  heartRate : Nat
  newHeartRate : Bool
  myState : DevState
  myOldState : DevState
  fanSpeed : FanSpeeds
  fanLastSpeed : FanSpeeds
  deriving DecidableEq, Repr

/-- Initial values of the globals at boot
(lines 256, 257, 278, 281, 288, 289, 293, 294). -/
def initState : SysState :=
  { doConnect := false, connected := false, heartRate := 0, newHeartRate := false,
    myState := stIdle, myOldState := stInit, fanSpeed := fsOff, fanLastSpeed := fsInit }

/-- Reads byte i of a raw payload.  Payload cells are machine uint8 values,
so the value read is reduced mod 2^8. -/
def byteAt (p : List Nat) (i : Nat) : Nat := p.getD i 0 % 256

/-- Embedding of heartRateNotifyCallback (lines 378-402): a payload shorter
than 2 bytes is dropped (reported on serial, state untouched); otherwise
byte 1 is accepted as the new heart rate exactly when it is nonzero and
differs from the held value, in which case the pending flag is set. -/
def heartRateNotifyCallback (s : SysState) (pData : List Nat) : SysState :=
  if pData.length < 2 then s
  else if 0 < byteAt pData 1 ∧ s.heartRate ≠ byteAt pData 1 then
    { s with heartRate := byteAt pData 1, newHeartRate := true }
  else s

/-- Embedding of MyClientCallback.onDisconnect (lines 306-311): clears the
connected flag and returns the machine to stIdle.  Note that it leaves
heartRate and newHeartRate untouched. -/
def onDisconnect (s : SysState) : SysState :=
  { s with connected := false, myState := stIdle }

/-- Embedding of MyAdvertisedDeviceCallbacks.onResult for an advertisement
carrying the heart-rate service UUID (lines 356-363): stops the scan and
records that a connect attempt should be made. -/
def onAdvertisedResult (s : SysState) : SysState :=
  { s with doConnect := true }

/-- Connect block of loop() (lines 553-566): when doConnect is set and
connectToServer succeeds, notifications are armed, connected is set,
the machine moves to stConnected, the scan is stopped and doConnect is
cleared; on failure nothing changes (retry happens implicitly).  The
argument connectOk is the environment outcome of connectToServer. -/
def connectPhase (connectOk : Bool) (s : SysState) : SysState :=
  if s.doConnect then
    if connectOk then
      { s with connected := true, myState := stConnected, doConnect := false }
    else s
  else s

/-- Threshold mapping from a heart rate to a fan speed (lines 579-586). -/
def decideSpeed (hr : Nat) : FanSpeeds :=
  if hr > 130 then fsHigh
  else if hr > 115 then fsMed
  else if hr > 100 then fsLow
  else fsOff

/-- Decision block of loop() (lines 575-591), with the current value of the
msSinceFanChange counter passed in: while stConnected, a pending sample is
consumed (flag cleared) and, only if the counter exceeds 15000, the fan
speed is recomputed from the held heart rate; in any other state the fan
speed is forced to fsOff. -/
def decisionPhase (msSinceFanChange : Nat) (s : SysState) : SysState :=
  if s.myState = stConnected then
    if s.newHeartRate then
      let s1 := { s with newHeartRate := false }
      if msSinceFanChange > 15000 then
        { s1 with fanSpeed := decideSpeed s1.heartRate }
      else s1
    else s
  else { s with fanSpeed := fsOff }

/-- Press count of the switch in setFanSpeed (lines 491-507); the default
branch leaves the count at its initial value 0. -/
def presses : FanSpeeds → Nat
  | fsOff => 0
  | fsLow => 3
  | fsMed => 2
  | fsHigh => 1
  | fsInit => 0

/-- One operation on the fan control line: a digitalWrite of a level
(1 = BUTTON_PRESSED, 0 = BUTTON_NOT_PRESSED) or a delay in ms. -/
inductive FanOp
  | write (level : Nat)
  | wait (ms : Nat)
  deriving DecidableEq, Repr

/-- Embedding of setFanSpeed (lines 482-515) as the sequence of control-line
writes and delays it performs for a target speed: press for 3000 ms then
release, then for each required short press wait 250 ms, press, wait
250 ms, release.  The sequence depends only on the target speed. -/
def setFanSpeed (sp : FanSpeeds) : List FanOp :=
  [FanOp.write 1, FanOp.wait 3000, FanOp.write 0]
    ++ (List.replicate (presses sp)
          [FanOp.wait 250, FanOp.write 1, FanOp.wait 250, FanOp.write 0]).flatten

/-- Time consumed by one control-line operation (writes are instantaneous). -/
def opTime : FanOp → Nat
  | FanOp.write _ => 0
  | FanOp.wait ms => ms

/-- Total blocking time of a control-line sequence. -/
def traceTime (tr : List FanOp) : Nat := (tr.map opTime).sum

/-- Total blocking time of one actuation sequence for a target speed. -/
def actuationDuration (sp : FanSpeeds) : Nat := traceTime (setFanSpeed sp)

/-- Accumulator pass extracting, from a control-line sequence, the time
intervals during which the line is held pressed.  The second argument is
the elapsed time, the third the start time of the current press if the
line is currently pressed. -/
def pressIntervalsAux : List FanOp → Nat → Option Nat → List (Nat × Nat)
  | [], _, _ => []
  | FanOp.wait ms :: rest, t, cur => pressIntervalsAux rest (t + ms) cur
  | FanOp.write l :: rest, t, none =>
      if l = 1 then pressIntervalsAux rest t (some t) else pressIntervalsAux rest t none
  | FanOp.write l :: rest, t, some t0 =>
      if l = 0 then (t0, t) :: pressIntervalsAux rest t none
      else pressIntervalsAux rest t (some t0)

/-- Intervals during which a control-line sequence holds the line pressed,
as (start, release) pairs relative to the start of the sequence. -/
def pressIntervals (tr : List FanOp) : List (Nat × Nat) := pressIntervalsAux tr 0 none

/-- One recorded actuation: absolute start time, absolute completion time
and the target speed driven. -/
structure Act where
  start : Nat
  stop : Nat
  target : FanSpeeds
  deriving DecidableEq, Repr

/-- Default actuation record used for list indexing. -/
def dAct : Act := { start := 0, stop := 0, target := fsOff }

/-- State of a whole run: the globals, the current time in ms, the time at
which msSinceFanChange was last reset (so the counter reads now - lastReset),
the actuation sequences performed so far, and how many times startScan has
been invoked. -/
structure RunState where
  sys : SysState
  now : Nat
  lastReset : Nat
  acts : List Act
  scansStarted : Nat
  deriving DecidableEq, Repr

/-- Run state at boot: counter freshly zeroed, no actuations yet. -/
def initRun : RunState :=
  { sys := initState, now := 0, lastReset := 0, acts := [], scansStarted := 0 }

/-- Actuation block of loop() (lines 599-606): when the decided speed
differs from the last applied speed the blocking sequence setFanSpeed runs
(recorded in acts), msSinceFanChange is reset at its completion and
fanLastSpeed is updated; otherwise nothing is driven.  Either way the tick
ends with myOldState := myState (line 608) and delay(1000) (line 610). -/
def actuatePhase (r : RunState) (scans : Nat) (s : SysState) : RunState :=
  if s.fanLastSpeed ≠ s.fanSpeed then
    { sys := { s with fanLastSpeed := s.fanSpeed, myOldState := s.myState },
      now := r.now + actuationDuration s.fanSpeed + 1000,
      lastReset := r.now + actuationDuration s.fanSpeed,
      acts := r.acts ++ [{ start := r.now, stop := r.now + actuationDuration s.fanSpeed,
                           target := s.fanSpeed }],
      scansStarted := scans }
  else
    { sys := { s with myOldState := s.myState },
      now := r.now + 1000,
      lastReset := r.lastReset,
      acts := r.acts,
      scansStarted := scans }

/-- One iteration of loop() (lines 543-611).  Lines 545-548 read
`if (myState == stIdle) { startScan(); myState == stScanning; }`: the second
statement is a comparison, not an assignment, so its only effect is that
startScan (which clears previous scan results and restarts the scan) is
invoked on every iteration that begins in stIdle; we count those
invocations in scansStarted. -/
def loop (connectOk : Bool) (r : RunState) : RunState :=
  actuatePhase r
    (r.scansStarted + if r.sys.myState = stIdle then 1 else 0)
    (decisionPhase (r.now - r.lastReset) (connectPhase connectOk r.sys))

/-- Environment steps of a run: an incoming notification payload, a matching
advertisement, an asynchronous disconnect, passage of time, or one loop
iteration (with the outcome the environment gives connectToServer). -/
inductive Step
  | notify (payload : List Nat)
  | deviceFound
  | disconnect
  | wait (ms : Nat)
  | tick (connectOk : Bool)
  deriving DecidableEq, Repr

/-- Whether a step is a loop iteration. -/
def isTick : Step → Bool
  | Step.tick _ => true
  | _ => false

/-- Effect of one step.  Notifications are only delivered while the link is
up (they can only arrive after registerForNotify on a live connection). -/
def stepRun (r : RunState) : Step → RunState
  | Step.notify p =>
      { r with sys := if r.sys.connected then heartRateNotifyCallback r.sys p else r.sys }
  | Step.deviceFound => { r with sys := onAdvertisedResult r.sys }
  | Step.disconnect => { r with sys := onDisconnect r.sys }
  | Step.wait ms => { r with now := r.now + ms }
  | Step.tick c => loop c r

/-- Run from boot through a list of steps. -/
def run (steps : List Step) : RunState := steps.foldl stepRun initRun

/-- C3: for every bpm value, the decision thresholds are a pure function of
the value partitioning it into the bands Off (up to 100), Low (101-115),
Med (116-130) and High (131 up); in particular 101 gives Low, 116 gives
Med, 131 gives High and 100 gives Off. -/
theorem decideSpeed_threshold_bands :
    (∀ v : Nat,
      (decideSpeed v = fsOff ↔ v ≤ 100)
      ∧ (decideSpeed v = fsLow ↔ 100 < v ∧ v ≤ 115)
      ∧ (decideSpeed v = fsMed ↔ 115 < v ∧ v ≤ 130)
      ∧ (decideSpeed v = fsHigh ↔ 130 < v))
    ∧ decideSpeed 101 = fsLow ∧ decideSpeed 116 = fsMed
    ∧ decideSpeed 131 = fsHigh ∧ decideSpeed 100 = fsOff := by
  refine ⟨fun v => ?_, by decide, by decide, by decide, by decide⟩
  unfold decideSpeed
  split_ifs with h1 h2 h3 <;>
    refine ⟨?_, ?_, ?_, ?_⟩ <;> constructor <;> intro h <;>
      first
        | omega
        | (exact absurd h (by decide))
        | rfl

/-- C4: for every target speed, the actuation sequence holds the line
pressed from time 0 to 3000 (the long hold-off) and then issues exactly
presses-many short presses of 250 ms each, separated by 250 ms releases;
the press count is a function of the target alone, with Off mapped to 0,
Low to 3, Med to 2 and High to 1. -/
theorem setFanSpeed_pulse_structure :
    ∀ sp : FanSpeeds,
      pressIntervals (setFanSpeed sp)
        = (0, 3000) :: (List.range (presses sp)).map
            (fun i => (3250 + 500 * i, 3500 + 500 * i))
      ∧ presses fsOff = 0 ∧ presses fsLow = 3 ∧ presses fsMed = 2 ∧ presses fsHigh = 1 := by
  intro sp
  cases sp <;> exact ⟨by decide, rfl, rfl, rfl, rfl⟩

/-- C5: the sample callback leaves every field of the state unchanged unless
the payload has at least 2 bytes and byte 1 is nonzero and differs from the
held heart rate, in which case byte 1 is stored as the heart rate and the
pending flag is set; all other fields are never touched. -/
theorem heartRateNotifyCallback_filter (s : SysState) (p : List Nat) :
    ((heartRateNotifyCallback s p).heartRate, (heartRateNotifyCallback s p).newHeartRate)
      = (if 2 ≤ p.length ∧ 0 < byteAt p 1 ∧ s.heartRate ≠ byteAt p 1
          then (byteAt p 1, true)
          else (s.heartRate, s.newHeartRate))
    ∧ (heartRateNotifyCallback s p).doConnect = s.doConnect
    ∧ (heartRateNotifyCallback s p).connected = s.connected
    ∧ (heartRateNotifyCallback s p).myState = s.myState
    ∧ (heartRateNotifyCallback s p).myOldState = s.myOldState
    ∧ (heartRateNotifyCallback s p).fanSpeed = s.fanSpeed
    ∧ (heartRateNotifyCallback s p).fanLastSpeed = s.fanLastSpeed := by
  unfold heartRateNotifyCallback
  by_cases hlen : p.length < 2
  · have h2 : ¬ 2 ≤ p.length := by omega
    simp [hlen, h2]
  · have h2 : 2 ≤ p.length := by omega
    by_cases hacc : 0 < byteAt p 1 ∧ s.heartRate ≠ byteAt p 1
    · simp [hlen, h2, hacc]
    · simp [hlen, h2, hacc]

/-- Frame lemma for the sample callback: it never touches the fan or
connection fields. -/
lemma hrcb_frame (s : SysState) (p : List Nat) :
    (heartRateNotifyCallback s p).fanSpeed = s.fanSpeed
    ∧ (heartRateNotifyCallback s p).fanLastSpeed = s.fanLastSpeed
    ∧ (heartRateNotifyCallback s p).myState = s.myState
    ∧ (heartRateNotifyCallback s p).connected = s.connected := by
  unfold heartRateNotifyCallback
  split
  · exact ⟨rfl, rfl, rfl, rfl⟩
  · split <;> exact ⟨rfl, rfl, rfl, rfl⟩

/-- Frame lemma for the connect block: it never touches the sample or fan
fields. -/
lemma connectPhase_fields (c : Bool) (s : SysState) :
    (connectPhase c s).heartRate = s.heartRate
    ∧ (connectPhase c s).newHeartRate = s.newHeartRate
    ∧ (connectPhase c s).fanSpeed = s.fanSpeed
    ∧ (connectPhase c s).fanLastSpeed = s.fanLastSpeed := by
  unfold connectPhase
  split
  · split
    · exact ⟨rfl, rfl, rfl, rfl⟩
    · exact ⟨rfl, rfl, rfl, rfl⟩
  · exact ⟨rfl, rfl, rfl, rfl⟩

/-- The decision block never touches the applied speed. -/
lemma decisionPhase_fanLastSpeed (ms : Nat) (s : SysState) :
    (decisionPhase ms s).fanLastSpeed = s.fanLastSpeed := by
  unfold decisionPhase
  by_cases hc : s.myState = stConnected
  · by_cases hn : s.newHeartRate = true
    · by_cases hm : ms > 15000 <;> simp [hc, hn, hm]
    · simp [hc, hn]
  · simp [hc]

/-- Case split on what the decision block does to the desired speed: it
leaves it alone, forces it to fsOff, or recomputes it from the heart rate,
the latter only when the dwell counter exceeds 15000. -/
lemma decisionPhase_fanSpeed_cases (ms : Nat) (s : SysState) :
    (decisionPhase ms s).fanSpeed = s.fanSpeed
    ∨ (decisionPhase ms s).fanSpeed = fsOff
    ∨ ((decisionPhase ms s).fanSpeed = decideSpeed s.heartRate ∧ 15000 < ms) := by
  unfold decisionPhase
  by_cases hc : s.myState = stConnected
  · by_cases hn : s.newHeartRate = true
    · by_cases hm : ms > 15000
      · right; right; exact ⟨by simp [hc, hn, hm], hm⟩
      · left; simp [hc, hn, hm]
    · left; simp [hc, hn]
  · right; left; simp [hc]

/-- When no sample is pending the decision block leaves the desired speed
alone or forces it to fsOff. -/
lemma decisionPhase_no_pending (ms : Nat) (s : SysState) (h : s.newHeartRate = false) :
    (decisionPhase ms s).fanSpeed = s.fanSpeed ∨ (decisionPhase ms s).fanSpeed = fsOff := by
  unfold decisionPhase
  by_cases hc : s.myState = stConnected
  · left; simp [hc, h]
  · right; simp [hc]

/-- In any state the decision block forces fsOff outside stConnected. -/
lemma decisionPhase_not_connected (ms : Nat) (s : SysState) (h : s.myState ≠ stConnected) :
    decisionPhase ms s = { s with fanSpeed := fsOff } := by
  unfold decisionPhase
  simp [h]

/-- The thresholds never produce the sentinel speed. -/
lemma decideSpeed_ne_fsInit (hr : Nat) : decideSpeed hr ≠ fsInit := by
  unfold decideSpeed
  split_ifs <;> decide

/-- The actuation block keeps the decided speed. -/
lemma actuatePhase_fanSpeed (r : RunState) (scans : Nat) (s : SysState) :
    (actuatePhase r scans s).sys.fanSpeed = s.fanSpeed := by
  unfold actuatePhase
  split <;> rfl

/-- Effect of the actuation block on the recorded actuations, the applied
speed and the dwell counter reset, as a function of whether the decided
speed differs from the applied one. -/
lemma actuatePhase_spec (r : RunState) (scans : Nat) (s : SysState) :
    (actuatePhase r scans s).acts
      = (if s.fanLastSpeed = s.fanSpeed then r.acts
          else r.acts ++ [{ start := r.now, stop := r.now + actuationDuration s.fanSpeed,
                            target := s.fanSpeed }])
    ∧ (actuatePhase r scans s).sys.fanLastSpeed = s.fanSpeed
    ∧ (actuatePhase r scans s).lastReset
        = (if s.fanLastSpeed = s.fanSpeed then r.lastReset
            else r.now + actuationDuration s.fanSpeed) := by
  unfold actuatePhase
  by_cases h : s.fanLastSpeed = s.fanSpeed <;> simp [h]

/-- Run exhibiting the dwell-gap violation: boot actuation (Off), connect,
heart rate 135 once the dwell has expired (High actuation ending at
23500 ms), then a disconnect; the very next tick forces the fan Off and
actuates at 24500 ms, only 1000 ms after the previous sequence ended. -/
def cexTrace : List Step :=
  [Step.tick false, Step.deviceFound, Step.tick true, Step.wait 15000,
   Step.notify [22, 135], Step.tick false, Step.disconnect, Step.tick false]

/-- C1 counterexample: in the concrete run cexTrace, the actuation forced by
the disconnect begins 1000 ms after the end of the heart-rate actuation,
far less than the 15000 ms dwell the claim requires between any two
sequences. -/
theorem dwell_violation_on_disconnect :
    (run cexTrace).acts
      = [{ start := 0, stop := 3000, target := fsOff },
         { start := 20000, stop := 23500, target := fsHigh },
         { start := 24500, stop := 27500, target := fsOff }]
    ∧ ((run cexTrace).acts.getD 2 dAct).start
        < ((run cexTrace).acts.getD 1 dAct).stop + 15000 := by
  decide

/-- Run reaching stConnected with a pending sample of 135 bpm while the
dwell counter reads only 2000 ms. -/
def c2Trace : List Step :=
  [Step.tick false, Step.deviceFound, Step.tick true, Step.notify [22, 135]]

/-- C2 counterexample: with a pending sample of 135 while Connected and the
dwell counter at 2000 ms, the next tick consumes the sample (pending flag
cleared) yet leaves DesiredSpeed at fsOff instead of updating it to
fsHigh = decideSpeed 135: the Decision Engine does consult the dwell timer
and a sample arriving before expiry does not update DesiredSpeed. -/
theorem decision_consults_dwell_cex :
    (run c2Trace).sys.myState = stConnected
    ∧ (run c2Trace).sys.newHeartRate = true
    ∧ (run c2Trace).sys.heartRate = 135
    ∧ (run c2Trace).now - (run c2Trace).lastReset = 2000
    ∧ decideSpeed 135 = fsHigh
    ∧ (stepRun (run c2Trace) (Step.tick false)).sys.newHeartRate = false
    ∧ (stepRun (run c2Trace) (Step.tick false)).sys.fanSpeed = fsOff := by
  decide

/-- C2 as amended: while Connected with a pending sample, the decision block
always consumes the sample (clears the pending flag) but recomputes
DesiredSpeed from the held heart rate only when the dwell counter exceeds
15000 ms; a sample consumed earlier leaves DesiredSpeed unchanged. -/
theorem decision_consumes_sample_dwell_gated (ms : Nat) (s : SysState)
    (h1 : s.myState = stConnected) (h2 : s.newHeartRate = true) :
    (decisionPhase ms s).newHeartRate = false
    ∧ (decisionPhase ms s).fanSpeed
        = (if 15000 < ms then decideSpeed s.heartRate else s.fanSpeed) := by
  unfold decisionPhase
  by_cases hm : ms > 15000 <;> simp [h1, h2, hm]

/-- Connected state with a pending 135 bpm sample used to instantiate the
amended C2. -/
def wSysC2 : SysState :=
  { initState with myState := stConnected, newHeartRate := true, heartRate := 135 }

/-- Witness for the amended C2 at dwell counter 1000. -/
theorem decision_consumes_sample_dwell_gated_witness :
    (decisionPhase 1000 wSysC2).newHeartRate = false
    ∧ (decisionPhase 1000 wSysC2).fanSpeed
        = (if 15000 < 1000 then decideSpeed wSysC2.heartRate else wSysC2.fanSpeed) :=
  decision_consumes_sample_dwell_gated 1000 wSysC2 rfl rfl

/-- C6: on any tick whose decision step sees a state other than stConnected
(the state after the connect block), the desired speed coming out of the
tick is fsOff, whatever heart rate is latched and whether or not a sample
is pending. -/
theorem not_connected_forces_off (r : RunState) (c : Bool)
    (h : (connectPhase c r.sys).myState ≠ stConnected) :
    (loop c r).sys.fanSpeed = fsOff := by
  unfold loop
  rw [actuatePhase_fanSpeed, decisionPhase_not_connected _ _ h]

/-- Idle run state holding a stale latched heart rate of 150 and a pending
flag, used to instantiate C6. -/
def wRunC6 : RunState :=
  { initRun with sys := { initState with heartRate := 150, newHeartRate := true } }

/-- Witness for C6: even with heart rate 150 latched and a pending sample,
a tick taken while not Connected leaves the desired speed at fsOff. -/
theorem not_connected_forces_off_witness :
    (loop false wRunC6).sys.fanSpeed = fsOff :=
  not_connected_forces_off wRunC6 false (by decide)

/-- C7 evaluation at the failing input: line 547 reads
`myState == stScanning;`, a comparison with no effect, so after a tick that
begins in stIdle the machine is still in stIdle (never stScanning) and
startScan is invoked again on the following tick. -/
theorem idle_scan_reinvoked_state_stuck :
    (run [Step.tick false]).sys.myState = stIdle
    ∧ (run [Step.tick false]).scansStarted = 1
    ∧ (run [Step.tick false, Step.tick false]).sys.myState = stIdle
    ∧ (run [Step.tick false, Step.tick false]).scansStarted = 2 := by
  decide

/-- Run reaching stConnected with latched heart rate 120 and a pending
sample. -/
def c8Trace : List Step :=
  [Step.tick false, Step.deviceFound, Step.tick true, Step.notify [22, 120]]

/-- C8 counterexample: a disconnect delivered while Connected with latched
heart rate 120 and the pending flag set moves the machine to stIdle but
leaves both the latched value and the pending flag in place, so the
in-flight sample state is not cleared. -/
theorem disconnect_keeps_sample_cex :
    (run c8Trace).sys.connected = true
    ∧ (run c8Trace).sys.heartRate = 120
    ∧ (run c8Trace).sys.newHeartRate = true
    ∧ (stepRun (run c8Trace) Step.disconnect).sys.myState = stIdle
    ∧ (stepRun (run c8Trace) Step.disconnect).sys.heartRate = 120
    ∧ (stepRun (run c8Trace) Step.disconnect).sys.newHeartRate = true := by
  decide

/-- C8 as amended: the disconnect callback moves the machine to stIdle and
clears the connected flag, and leaves every other field, in particular the
latched heart rate and the pending flag, unchanged. -/
theorem onDisconnect_effect (s : SysState) :
    (onDisconnect s).myState = stIdle
    ∧ (onDisconnect s).connected = false
    ∧ (onDisconnect s).heartRate = s.heartRate
    ∧ (onDisconnect s).newHeartRate = s.newHeartRate
    ∧ (onDisconnect s).fanSpeed = s.fanSpeed
    ∧ (onDisconnect s).fanLastSpeed = s.fanLastSpeed
    ∧ (onDisconnect s).doConnect = s.doConnect :=
  ⟨rfl, rfl, rfl, rfl, rfl, rfl, rfl⟩

/-- C9: actuation is strictly change-triggered.  Writing s for the state the
decision step produces, a tick records no actuation (the control line is
untouched and the dwell counter keeps running) exactly when the decided
speed equals the applied speed, whatever the dwell counter reads; when they
differ, the tick appends one actuation with the decided speed as target,
sets the applied speed to the decided speed, and resets the dwell counter
at the completion time of the sequence. -/
theorem actuation_change_triggered (c : Bool) (r : RunState) :
    ((loop c r).acts
      = (if (decisionPhase (r.now - r.lastReset) (connectPhase c r.sys)).fanLastSpeed
            = (decisionPhase (r.now - r.lastReset) (connectPhase c r.sys)).fanSpeed
          then r.acts
          else r.acts
            ++ [{ start := r.now,
                  stop := r.now + actuationDuration
                    (decisionPhase (r.now - r.lastReset) (connectPhase c r.sys)).fanSpeed,
                  target := (decisionPhase (r.now - r.lastReset)
                    (connectPhase c r.sys)).fanSpeed }]))
    ∧ (loop c r).sys.fanLastSpeed
        = (decisionPhase (r.now - r.lastReset) (connectPhase c r.sys)).fanSpeed
    ∧ (loop c r).lastReset
        = (if (decisionPhase (r.now - r.lastReset) (connectPhase c r.sys)).fanLastSpeed
              = (decisionPhase (r.now - r.lastReset) (connectPhase c r.sys)).fanSpeed
            then r.lastReset
            else r.now + actuationDuration
              (decisionPhase (r.now - r.lastReset) (connectPhase c r.sys)).fanSpeed) := by
  exact actuatePhase_spec r _ _

/-- Indexing into an append stays in the left list below its length. -/
lemma getD_append_lt {α : Type} (l l2 : List α) (d : α) (i : Nat) (h : i < l.length) :
    (l ++ l2).getD i d = l.getD i d := by
  induction l generalizing i with
  | nil => simp at h
  | cons a t ih =>
    cases i with
    | zero => rfl
    | succ j =>
      simp only [List.cons_append, List.getD_cons_succ]
      exact ih j (by simp only [List.length_cons] at h; omega)

/-- Indexing an appended singleton at the length of the left list gives the
appended element. -/
lemma getD_append_len {α : Type} (l : List α) (b : α) (d : α) :
    (l ++ [b]).getD l.length d = b := by
  induction l with
  | nil => rfl
  | cons a t ih =>
    simp only [List.cons_append, List.length_cons, List.getD_cons_succ]
    exact ih

/-- Completion time of the last recorded actuation, 0 when none exists. -/
def lastStop (l : List Act) : Nat := (l.getD (l.length - 1) dAct).stop

/-- Appending an actuation makes its completion time the last one. -/
lemma lastStop_append (l : List Act) (b : Act) : lastStop (l ++ [b]) = b.stop := by
  unfold lastStop
  have hlen : (l ++ [b]).length - 1 = l.length := by
    simp only [List.length_append, List.length_singleton]
    omega
  rw [hlen, getD_append_len]

/-- Dwell property of a list of recorded actuations: every actuation with a
target other than fsOff begins at least 15000 ms after the completion of
the actuation just before it. -/
def DwellOk (l : List Act) : Prop :=
  ∀ i : Nat, i + 1 < l.length → (l.getD (i + 1) dAct).target ≠ fsOff →
    (l.getD i dAct).stop + 15000 ≤ (l.getD (i + 1) dAct).start

/-- Appending an actuation preserves the dwell property provided the new
actuation, when its target is not fsOff, starts at least 15000 ms after
the last completion. -/
lemma dwellOk_append (l : List Act) (b : Act) (h : DwellOk l)
    (hb : b.target ≠ fsOff → lastStop l + 15000 ≤ b.start) :
    DwellOk (l ++ [b]) := by
  intro i hi ht
  have hi2 : i + 1 < l.length + 1 := by
    simpa [List.length_append] using hi
  by_cases hlt : i + 1 < l.length
  · rw [getD_append_lt l [b] dAct (i + 1) hlt] at ht ⊢
    rw [getD_append_lt l [b] dAct i (by omega)]
    exact h i hlt ht
  · have hEqLen : i + 1 = l.length := by omega
    have hbEq : (l ++ [b]).getD (i + 1) dAct = b := by
      rw [hEqLen]; exact getD_append_len l b dAct
    rw [hbEq] at ht ⊢
    rw [getD_append_lt l [b] dAct i (by omega)]
    have hidx : l.getD i dAct = l.getD (l.length - 1) dAct := by
      congr 1; omega
    rw [hidx]
    exact hb ht

/-- Reachability invariant of a run: the dwell counter was last reset at the
completion of the last actuation (or at boot), the decided speed is never
the sentinel, the applied speed either agrees with the decided speed or
still holds the boot sentinel with the decided speed at fsOff, and the
recorded actuations satisfy the dwell property. -/
def RunInv (r : RunState) : Prop :=
  r.lastReset = lastStop r.acts
  ∧ r.sys.fanSpeed ≠ fsInit
  ∧ (r.sys.fanLastSpeed = r.sys.fanSpeed
      ∨ (r.sys.fanLastSpeed = fsInit ∧ r.sys.fanSpeed = fsOff))
  ∧ DwellOk r.acts

/-- The invariant holds at boot. -/
lemma inv_initRun : RunInv initRun := by
  refine ⟨rfl, by decide, Or.inr ⟨rfl, rfl⟩, ?_⟩
  intro i hi ht
  simp [initRun] at hi

/-- The actuation block preserves the invariant, given that the decision
step only changed the decided speed under the dwell guard. -/
lemma actuatePhase_inv (r : RunState) (scans : Nat) (s : SysState)
    (hr : RunInv r)
    (hA : s.fanLastSpeed = r.sys.fanLastSpeed)
    (hB : s.fanSpeed = r.sys.fanSpeed ∨ s.fanSpeed = fsOff
          ∨ (s.fanSpeed ≠ fsInit ∧ 15000 < r.now - r.lastReset)) :
    RunInv (actuatePhase r scans s) := by
  have hfsInit : s.fanSpeed ≠ fsInit := by
    rcases hB with h1 | h2 | ⟨h3, _⟩
    · rw [h1]; exact hr.2.1
    · rw [h2]; decide
    · exact h3
  unfold actuatePhase
  by_cases hne : s.fanLastSpeed = s.fanSpeed
  · rw [if_neg (by simp [hne])]
    exact ⟨hr.1, hfsInit, Or.inl hne, hr.2.2.2⟩
  · rw [if_pos hne]
    refine ⟨?_, hfsInit, Or.inl rfl, ?_⟩
    · show r.now + actuationDuration s.fanSpeed
          = lastStop (r.acts
              ++ [Act.mk r.now (r.now + actuationDuration s.fanSpeed) s.fanSpeed])
      exact (lastStop_append r.acts
        (Act.mk r.now (r.now + actuationDuration s.fanSpeed) s.fanSpeed)).symm
    · refine dwellOk_append r.acts _ hr.2.2.2 ?_
      intro ht
      rcases hB with h1 | h2 | ⟨_, hm⟩
      · exfalso
        rcases hr.2.2.1 with hl | ⟨_, hOff⟩
        · exact hne (by rw [hA, h1]; exact hl)
        · exact ht (by rw [h1]; exact hOff)
      · exact absurd h2 ht
      · rw [← hr.1]
        show r.lastReset + 15000 ≤ r.now
        omega

/-- Every step preserves the invariant. -/
lemma inv_stepRun (r : RunState) (st : Step) (h : RunInv r) : RunInv (stepRun r st) := by
  have frame : ∀ r2 : RunState, r2.lastReset = r.lastReset → r2.acts = r.acts →
      r2.sys.fanSpeed = r.sys.fanSpeed → r2.sys.fanLastSpeed = r.sys.fanLastSpeed →
      RunInv r2 := by
    intro r2 e1 e2 e3 e4
    unfold RunInv
    rw [e1, e2, e3, e4]
    exact h
  cases st with
  | notify p =>
    refine frame (stepRun r (Step.notify p)) rfl rfl ?_ ?_
    · show (if r.sys.connected then heartRateNotifyCallback r.sys p else r.sys).fanSpeed
        = r.sys.fanSpeed
      split
      · exact (hrcb_frame _ _).1
      · rfl
    · show (if r.sys.connected then heartRateNotifyCallback r.sys p else r.sys).fanLastSpeed
        = r.sys.fanLastSpeed
      split
      · exact (hrcb_frame _ _).2.1
      · rfl
  | deviceFound => exact frame _ rfl rfl rfl rfl
  | disconnect => exact frame _ rfl rfl rfl rfl
  | wait ms => exact frame _ rfl rfl rfl rfl
  | tick c =>
    have hcp := connectPhase_fields c r.sys
    refine actuatePhase_inv r _ _ h ?_ ?_
    · rw [decisionPhase_fanLastSpeed]; exact hcp.2.2.2
    · rcases decisionPhase_fanSpeed_cases (r.now - r.lastReset) (connectPhase c r.sys)
        with h1 | h2 | ⟨h3, hm⟩
      · left; rw [h1]; exact hcp.2.2.1
      · right; left; exact h2
      · right; right
        exact ⟨by rw [h3]; exact decideSpeed_ne_fsInit _, hm⟩

/-- The invariant is preserved along any list of steps. -/
lemma inv_foldl (l : List Step) (r : RunState) (h : RunInv r) :
    RunInv (l.foldl stepRun r) := by
  induction l generalizing r with
  | nil => exact h
  | cons a t ih => exact ih _ (inv_stepRun r a h)

/-- Every run from boot satisfies the invariant. -/
lemma inv_run (steps : List Step) : RunInv (run steps) :=
  inv_foldl steps initRun inv_initRun

/-- C1 as amended: in every run, an actuation sequence whose target is not
fsOff begins at least 15000 ms after the completion of the actuation just
before it; only the actuations that force the fan Off after a
connection-state change escape the dwell gate (see the counterexample). -/
theorem dwell_gap_nonOff_actuations (steps : List Step) (i : Nat)
    (h1 : i + 1 < (run steps).acts.length)
    (h2 : ((run steps).acts.getD (i + 1) dAct).target ≠ fsOff) :
    ((run steps).acts.getD i dAct).stop + 15000
      ≤ ((run steps).acts.getD (i + 1) dAct).start :=
  (inv_run steps).2.2.2 i h1 h2

/-- Witness for the amended C1: in the run cexTrace the heart-rate actuation
(target fsHigh, starting at 20000) begins 17000 ms after the boot actuation
completed at 3000. -/
theorem dwell_gap_nonOff_actuations_witness :
    ((run cexTrace).acts.getD 0 dAct).stop + 15000
      ≤ ((run cexTrace).acts.getD 1 dAct).start :=
  dwell_gap_nonOff_actuations cexTrace 0 (by decide) (by decide)

/-- State of a run before the first loop iteration: no connection, no
pending sample, decided speed at fsOff, applied speed still the boot
sentinel, and no actuation recorded. -/
def PreBoot (r : RunState) : Prop :=
  r.sys.connected = false ∧ r.sys.newHeartRate = false
  ∧ r.sys.fanSpeed = fsOff ∧ r.sys.fanLastSpeed = fsInit ∧ r.acts = []

/-- PreBoot holds at boot. -/
lemma preBoot_initRun : PreBoot initRun := ⟨rfl, rfl, rfl, rfl, rfl⟩

/-- Any step other than a loop iteration preserves PreBoot (notifications
are not delivered while disconnected, and the other callbacks touch only
doConnect, connected and myState). -/
lemma preBoot_step (r : RunState) (st : Step) (hst : isTick st = false)
    (h : PreBoot r) : PreBoot (stepRun r st) := by
  obtain ⟨h1, h2, h3, h4, h5⟩ := h
  cases st with
  | notify p =>
    refine ⟨?_, ?_, ?_, ?_, h5⟩ <;> simp [stepRun, h1, h2, h3, h4]
  | deviceFound => exact ⟨h1, h2, h3, h4, h5⟩
  | disconnect => exact ⟨rfl, h2, h3, h4, h5⟩
  | wait ms => exact ⟨h1, h2, h3, h4, h5⟩
  | tick c => simp [isTick] at hst

/-- PreBoot is preserved along any list of steps containing no loop
iteration. -/
lemma preBoot_foldl (l : List Step) (hl : ∀ st ∈ l, isTick st = false)
    (r : RunState) (h : PreBoot r) : PreBoot (l.foldl stepRun r) := by
  induction l generalizing r with
  | nil => exact h
  | cons a t ih =>
    exact ih (fun st hst => hl st (List.mem_cons_of_mem a hst)) _
      (preBoot_step r a (hl a (List.mem_cons_self a t)) h)

/-- From a PreBoot state, the actuation block always fires with target
fsOff, recording a single sequence of duration 3000 ms. -/
lemma actuatePhase_first (r : RunState) (scans : Nat) (s : SysState)
    (hfl : s.fanLastSpeed = fsInit) (hfs : s.fanSpeed = fsOff) (hacts : r.acts = []) :
    (actuatePhase r scans s).acts
      = [{ start := r.now, stop := r.now + 3000, target := fsOff }] := by
  unfold actuatePhase
  rw [if_pos (by rw [hfl, hfs]; decide)]
  have hdur : actuationDuration fsOff = 3000 := by decide
  simp [hacts, hfs, hdur]

/-- From any PreBoot state the first loop iteration records exactly one
actuation, with target fsOff, starting immediately and completing 3000 ms
later. -/
lemma first_tick_off (c : Bool) (r : RunState) (h : PreBoot r) :
    (loop c r).acts = [{ start := r.now, stop := r.now + 3000, target := fsOff }] := by
  obtain ⟨h1, h2, h3, h4, h5⟩ := h
  have hcp := connectPhase_fields c r.sys
  have hn : (connectPhase c r.sys).newHeartRate = false := by
    rw [hcp.2.1]; exact h2
  have hfs2 : (decisionPhase (r.now - r.lastReset) (connectPhase c r.sys)).fanSpeed
      = fsOff := by
    rcases decisionPhase_no_pending (r.now - r.lastReset) _ hn with ha | hb
    · rw [ha, hcp.2.2.1]; exact h3
    · exact hb
  have hfl2 : (decisionPhase (r.now - r.lastReset) (connectPhase c r.sys)).fanLastSpeed
      = fsInit := by
    rw [decisionPhase_fanLastSpeed, hcp.2.2.2]; exact h4
  exact actuatePhase_first r _ _ hfl2 hfs2 h5

/-- C10: after any prefix of environment steps containing no loop iteration,
the very first loop iteration always actuates, with target fsOff: one
hold-off pulse of 3000 ms and zero short presses, because fanLastSpeed
still holds the boot sentinel fsInit while the decided speed is fsOff. -/
theorem first_tick_actuates_off (pre : List Step)
    (hpre : ∀ st ∈ pre, isTick st = false) (c : Bool) :
    (stepRun (run pre) (Step.tick c)).acts
      = [{ start := (run pre).now, stop := (run pre).now + 3000, target := fsOff }]
    ∧ presses fsOff = 0
    ∧ initState.fanLastSpeed = fsInit ∧ initState.fanSpeed = fsOff := by
  refine ⟨?_, rfl, rfl, rfl⟩
  exact first_tick_off c (run pre) (preBoot_foldl pre hpre initRun preBoot_initRun)

/-- Witness for C10: after an advertisement and 500 ms of idling, the first
loop iteration actuates Off for 3000 ms. -/
theorem first_tick_actuates_off_witness :
    (stepRun (run [Step.deviceFound, Step.wait 500]) (Step.tick true)).acts
      = [{ start := (run [Step.deviceFound, Step.wait 500]).now,
           stop := (run [Step.deviceFound, Step.wait 500]).now + 3000,
           target := fsOff }]
    ∧ presses fsOff = 0
    ∧ initState.fanLastSpeed = fsInit ∧ initState.fanSpeed = fsOff :=
  first_tick_actuates_off [Step.deviceFound, Step.wait 500] (by decide) true
